import Mathlib

/-!
Verification of the orchestration layer in `src/index.js` of the
WhatsApp group-manager bot. The file is a shallow embedding: each
external collaborator call (database init, HTTP listen, session-client
initialize/destroy, message/membership handlers) is modelled as an
`Except String Unit` oracle supplied by the environment, and the
control flow of `start`, `stop`, the signal handlers and the event
callbacks is translated statement by statement from the source.
-/

namespace WAGroupManager

/-- JS truthiness of an environment-variable string: only the empty
string is falsy. -/
def jsTruthy (s : String) : Bool := s ≠ ""

/-- The JS pattern `envVar || defaultString` for string-valued
environment variables (used for `BOT_NAME`). -/
def jsOrDefault (v : Option String) (d : String) : String :=
  match v with
  | some s => if jsTruthy s then s else d
  | none => d

/-- The value passed to `app.listen`: either the raw environment string
or the numeric default. -/
inductive PortValue
  | str (s : String)
  | num (n : Nat)
deriving DecidableEq

/-- Render a port value into the startup log line. -/
def PortValue.render : PortValue → String
  | .str s => s
  | .num n => toString n

/-- `process.env.WEB_PORT || 3000` from `start()`. -/
def resolvePort (webPort : Option String) : PortValue :=
  match webPort with
  | some s => if jsTruthy s then .str s else .num 3000
  | none => .num 3000

/-- The externally observable steps `start()` initiates, in source
order. -/
inductive StartStep
  | dbInit
  | httpListen (port : PortValue)
  | clientInit
  | scheduledTasks
deriving DecidableEq

/-- Oracles for the four external calls made inside the `try` block of
`start()`: `initDatabase()`, `app.listen(port)`, `client.initialize()`
and `automationHandler.startScheduledTasks(client)`. Each either
resolves or rejects with an error message. -/
structure StartEnv where
  initDatabase : Except String Unit
  appListen : Except String Unit
  clientInitialize : Except String Unit
  startScheduledTasks : Except String Unit

/-- The outcome of running `start()`: the steps initiated in order, the
console output, and the exit status if `process.exit` was called. -/
structure StartResult where
  steps : List StartStep
  logs : List String
  exitCode : Option Nat
deriving DecidableEq

/-- `WhatsAppGroupManager.start()`: awaits `initDatabase()`, logs, reads
`WEB_PORT`, calls `app.listen`, awaits `client.initialize()`, then calls
`startScheduledTasks`; any rejection in the sequence is caught by the
single `catch`, logged as a startup failure, and ends in
`process.exit(1)`. -/
def start (env : StartEnv) (webPort : Option String) : StartResult :=
  match env.initDatabase with
  | .error e =>
    { steps := [.dbInit]
      logs := ["Failed to start bot: " ++ e]
      exitCode := some 1 }
  | .ok _ =>
    let dbLog := "📊 Database initialized"
    let port := resolvePort webPort
    match env.appListen with
    | .error e =>
      { steps := [.dbInit, .httpListen port]
        logs := [dbLog, "Failed to start bot: " ++ e]
        exitCode := some 1 }
    | .ok _ =>
      let listenLogs :=
        ["🌐 Web dashboard running on http://localhost:" ++ port.render,
         "📊 Admin dashboard: http://localhost:" ++ port.render ++ "/dashboard"]
      match env.clientInitialize with
      | .error e =>
        { steps := [.dbInit, .httpListen port, .clientInit]
          logs := [dbLog] ++ listenLogs ++ ["Failed to start bot: " ++ e]
          exitCode := some 1 }
      | .ok _ =>
        match env.startScheduledTasks with
        | .error e =>
          { steps := [.dbInit, .httpListen port, .clientInit, .scheduledTasks]
            logs := [dbLog] ++ listenLogs ++ ["Failed to start bot: " ++ e]
            exitCode := some 1 }
        | .ok _ =>
          { steps := [.dbInit, .httpListen port, .clientInit, .scheduledTasks]
            logs := [dbLog] ++ listenLogs
            exitCode := none }

/-- `WhatsAppGroupManager.stop()`: awaits `client.destroy()` inside a
`try`; a rejection is caught and logged, so the returned promise always
resolves (the result is always `Except.ok` carrying the console
output). -/
def stop (clientDestroy : Except String Unit) : Except String (List String) :=
  match clientDestroy with
  | .ok _ => .ok ["🛑 Bot stopped gracefully"]
  | .error e => .ok ["Error stopping bot: " ++ e]

/-- Outcome of one run of a signal handler: console output, how many
times `stop()` was invoked, and the exit status if `process.exit` was
reached. -/
structure SignalOutcome where
  logs : List String
  stopCalls : Nat
  exitCode : Option Nat
deriving DecidableEq

/-- The `process.on("SIGINT", ...)` callback: logs, awaits
`global.bot.stop()` when the global handle is assigned (the argument
carries the behaviour of `client.destroy()`), then calls
`process.exit(0)`. If `stop()` rejected, the `await` would abort the
handler before `process.exit(0)`. -/
def sigintHandler (globalBot : Option (Except String Unit)) : SignalOutcome :=
  let shutdownLog := "\n🛑 Shutting down bot..."
  match globalBot with
  | none => { logs := [shutdownLog], stopCalls := 0, exitCode := some 0 }
  | some d =>
    match stop d with
    | .ok l => { logs := shutdownLog :: l, stopCalls := 1, exitCode := some 0 }
    | .error _ => { logs := [shutdownLog], stopCalls := 1, exitCode := none }

/-- The `process.on("SIGTERM", ...)` callback, registered separately in
the source with an identical body. -/
def sigtermHandler (globalBot : Option (Except String Unit)) : SignalOutcome :=
  let shutdownLog := "\n🛑 Shutting down bot..."
  match globalBot with
  | none => { logs := [shutdownLog], stopCalls := 0, exitCode := some 0 }
  | some d =>
    match stop d with
    | .ok l => { logs := shutdownLog :: l, stopCalls := 1, exitCode := some 0 }
    | .error _ => { logs := [shutdownLog], stopCalls := 1, exitCode := none }

/-- Configuration read by the `ready` callback: `process.env.BOT_NAME`
and `this.client.info.wid.user`. -/
structure DispatchCfg where
  botName : Option String
  clientUser : String

/-- Oracles for the three external handler modules invoked by the
inbound-event callbacks; each receives the raw payload and either
resolves or rejects. -/
structure Handlers where
  handleMessage : String → Except String Unit
  handleNewMember : String → Except String Unit
  handleMemberLeave : String → Except String Unit

/-- The eight events bound in `setupEventHandlers`, with their opaque
payloads. -/
inductive Event
  | qr (code : String)
  | ready
  | authenticated
  | authFailure (msg : String)
  | disconnected (reason : String)
  | message (payload : String)
  | groupJoin (notification : String)
  | groupLeave (notification : String)
deriving DecidableEq

/-- The five lifecycle events among the bound events (`qr`, `ready`,
`authenticated`, `auth_failure`, `disconnected`). -/
def Event.isLifecycle : Event → Bool
  | .qr _ => true
  | .ready => true
  | .authenticated => true
  | .authFailure _ => true
  | .disconnected _ => true
  | _ => false

/-- Names of the lifecycle events bound in `setupEventHandlers`, in
binding order. -/
def boundLifecycleEventNames : List String :=
  ["qr", "ready", "authenticated", "auth_failure", "disconnected"]

/-- Outcome of one registered callback: console output, the payload
handed to `qrcode.generate` if any, whether an external handler module
was invoked, and whether an exception escaped the callback. -/
structure EventResult where
  logs : List String
  qrGenerated : Option String
  handlerInvoked : Bool
  uncaught : Bool
deriving DecidableEq

/-- The callbacks registered in `setupEventHandlers`, one source branch
per bound event. The `message`, `group_join` and `group_leave`
callbacks each wrap their handler call in a `try`/`catch` that logs the
error, so no exception escapes them. -/
def dispatchEvent (h : Handlers) (cfg : DispatchCfg) : Event → EventResult
  | .qr code =>
    { logs := ["QR Code received, scan with your WhatsApp:"]
      qrGenerated := some code
      handlerInvoked := false
      uncaught := false }
  | .ready =>
    { logs := ["✅ WhatsApp Group Manager Bot is ready!",
               "🤖 Bot Name: " ++ jsOrDefault cfg.botName "GroupManager",
               "📱 Connected as: " ++ cfg.clientUser]
      qrGenerated := none
      handlerInvoked := false
      uncaught := false }
  | .authenticated =>
    { logs := ["🔐 Authentication successful!"]
      qrGenerated := none
      handlerInvoked := false
      uncaught := false }
  | .authFailure msg =>
    { logs := ["❌ Authentication failed: " ++ msg]
      qrGenerated := none
      handlerInvoked := false
      uncaught := false }
  | .disconnected reason =>
    { logs := ["📱 Client was logged out: " ++ reason]
      qrGenerated := none
      handlerInvoked := false
      uncaught := false }
  | .message payload =>
    match h.handleMessage payload with
    | .ok _ =>
      { logs := [], qrGenerated := none, handlerInvoked := true, uncaught := false }
    | .error e =>
      { logs := ["Error handling message: " ++ e]
        qrGenerated := none, handlerInvoked := true, uncaught := false }
  | .groupJoin notification =>
    match h.handleNewMember notification with
    | .ok _ =>
      { logs := [], qrGenerated := none, handlerInvoked := true, uncaught := false }
    | .error e =>
      { logs := ["Error handling new member: " ++ e]
        qrGenerated := none, handlerInvoked := true, uncaught := false }
  | .groupLeave notification =>
    match h.handleMemberLeave notification with
    | .ok _ =>
      { logs := [], qrGenerated := none, handlerInvoked := true, uncaught := false }
    | .error e =>
      { logs := ["Error handling member leave: " ++ e]
        qrGenerated := none, handlerInvoked := true, uncaught := false }

/-- Dispatch a sequence of emitted events in emission order. An
exception escaping a callback would crash the single-threaded process:
the run stops and the flag records the crash; otherwise every event is
dispatched. -/
def runEvents (h : Handlers) (cfg : DispatchCfg) : List Event → List EventResult × Bool
  | [] => ([], false)
  | e :: rest =>
    let r := dispatchEvent h cfg e
    if r.uncaught then ([r], true)
    else
      let p := runEvents h cfg rest
      (r :: p.1, p.2)

/-- An HTTP response as produced by the status endpoint: status code and
the JSON body as an ordered key-value list. -/
structure HttpResponse where
  status : Nat
  body : List (String × String)
deriving DecidableEq

/-- The `GET /` route handler: `res.json({...})` with the default 200
status. It reads nothing from the session client, so the readiness
argument is ignored. -/
def rootHandler (_sessionReady : Bool) : HttpResponse :=
  { status := 200
    body := [("status", "WhatsApp Group Manager Bot is running"),
             ("version", "1.0.0"),
             ("dashboard", "/dashboard")] }

/-- Handlers whose calls all reject, for concrete instantiations. -/
def badHandlers : Handlers :=
  { handleMessage := fun _ => .error "boom"
    handleNewMember := fun _ => .error "boom"
    handleMemberLeave := fun _ => .error "boom" }

/-- Handlers whose calls all resolve, for concrete instantiations. -/
def okHandlers : Handlers :=
  { handleMessage := fun _ => .ok ()
    handleNewMember := fun _ => .ok ()
    handleMemberLeave := fun _ => .ok () }

/-- A startup environment in which every external call resolves. -/
def envAllOk : StartEnv :=
  { initDatabase := .ok (), appListen := .ok ()
    clientInitialize := .ok (), startScheduledTasks := .ok () }

/-- A startup environment in which database initialization rejects. -/
def envDbFail : StartEnv :=
  { initDatabase := .error "db down", appListen := .ok ()
    clientInitialize := .ok (), startScheduledTasks := .ok () }

/-- A startup environment in which session-client initialization
rejects. -/
def envClientFail : StartEnv :=
  { initDatabase := .ok (), appListen := .ok ()
    clientInitialize := .error "no session", startScheduledTasks := .ok () }

/-- No callback registered in `setupEventHandlers` lets an exception
escape. -/
theorem dispatchEvent_uncaught_false (h : Handlers) (cfg : DispatchCfg) (e : Event) :
    (dispatchEvent h cfg e).uncaught = false := by
  cases e <;> simp only [dispatchEvent]
  case message payload =>
    cases h.handleMessage payload <;> rfl
  case groupJoin n =>
    cases h.handleNewMember n <;> rfl
  case groupLeave n =>
    cases h.handleMemberLeave n <;> rfl

/-- Dispatching never crashes the run and reaches every emitted
event. -/
theorem runEvents_total (h : Handlers) (cfg : DispatchCfg) (events : List Event) :
    (runEvents h cfg events).2 = false ∧
      (runEvents h cfg events).1.length = events.length := by
  induction events with
  | nil => exact ⟨rfl, rfl⟩
  | cons e rest ih =>
    simp only [runEvents, dispatchEvent_uncaught_false, if_neg, Bool.false_eq_true,
      not_false_iff, List.length_cons]
    exact ⟨ih.1, by simp [ih.2]⟩

/-- Claim C1: for every inbound message, group-join or group-leave
event, a rejection of the invoked external handler is caught and logged
inside that event callback, no exception escapes, the process does not
terminate, and every subsequent emitted event is still dispatched. -/
theorem inbound_handler_failure_isolated (h : Handlers) (cfg : DispatchCfg)
    (events : List Event) (payload e : String) :
    ((runEvents h cfg events).2 = false ∧
      (runEvents h cfg events).1.length = events.length) ∧
    (h.handleMessage payload = .error e →
      dispatchEvent h cfg (.message payload) =
        { logs := ["Error handling message: " ++ e]
          qrGenerated := none, handlerInvoked := true, uncaught := false }) ∧
    (h.handleNewMember payload = .error e →
      dispatchEvent h cfg (.groupJoin payload) =
        { logs := ["Error handling new member: " ++ e]
          qrGenerated := none, handlerInvoked := true, uncaught := false }) ∧
    (h.handleMemberLeave payload = .error e →
      dispatchEvent h cfg (.groupLeave payload) =
        { logs := ["Error handling member leave: " ++ e]
          qrGenerated := none, handlerInvoked := true, uncaught := false }) := by
  refine ⟨runEvents_total h cfg events, ?_, ?_, ?_⟩ <;>
    intro he <;> simp [dispatchEvent, he]

/-- Witness for C1: with handlers that reject, a two-event run is fully
dispatched without a crash and the message callback logs the error. -/
theorem inbound_handler_failure_isolated_witness :
    (runEvents badHandlers ⟨none, "user"⟩ [Event.message "m", Event.ready]).2 = false ∧
    (runEvents badHandlers ⟨none, "user"⟩ [Event.message "m", Event.ready]).1.length = 2 ∧
    dispatchEvent badHandlers ⟨none, "user"⟩ (Event.message "m") =
      { logs := ["Error handling message: boom"]
        qrGenerated := none, handlerInvoked := true, uncaught := false } := by
  obtain ⟨⟨h1, h2⟩, h3, -, -⟩ :=
    inbound_handler_failure_isolated badHandlers ⟨none, "user"⟩
      [Event.message "m", Event.ready] "m" "boom"
  exact ⟨h1, by simpa using h2, h3 rfl⟩

/-- Claim C2: every failure among database initialization, HTTP bind and
session-client initialization during `start()` is fatal: a startup
failure is logged and the process exits with status 1. -/
theorem startup_failure_fatal (env : StartEnv) (webPort : Option String)
    (hfail : (∃ e, env.initDatabase = .error e) ∨
      (∃ e, env.appListen = .error e) ∨
      (∃ e, env.clientInitialize = .error e)) :
    (start env webPort).exitCode = some 1 ∧
      ∃ e, ("Failed to start bot: " ++ e) ∈ (start env webPort).logs := by
  rcases hdb : env.initDatabase with e | u
  · exact ⟨by simp [start, hdb], e, by simp [start, hdb]⟩
  · rcases hl : env.appListen with e | u2
    · exact ⟨by simp [start, hdb, hl], e, by simp [start, hdb, hl]⟩
    · rcases hc : env.clientInitialize with e | u3
      · exact ⟨by simp [start, hdb, hl, hc], e, by simp [start, hdb, hl, hc]⟩
      · exfalso
        rcases hfail with ⟨e, he⟩ | ⟨e, he⟩ | ⟨e, he⟩ <;> simp_all

/-- Witness for C2: a rejected session-client initialization after a
successful bind exits with status 1 and logs the failure. -/
theorem startup_failure_fatal_witness :
    (start envClientFail none).exitCode = some 1 ∧
      ∃ e, ("Failed to start bot: " ++ e) ∈ (start envClientFail none).logs :=
  startup_failure_fatal envClientFail none (Or.inr (Or.inr ⟨"no session", rfl⟩))

/-- Claim C3: if database initialization rejects, `start()` exits with
status 1 and the HTTP listen step is never reached. -/
theorem db_failure_never_binds (env : StartEnv) (webPort : Option String)
    (e : String) (hdb : env.initDatabase = .error e) :
    (start env webPort).exitCode = some 1 ∧
      ∀ p, StartStep.httpListen p ∉ (start env webPort).steps := by
  simp [start, hdb]

/-- Witness for C3: with a rejecting database, exit status is 1 and no
listen step appears in the trace. -/
theorem db_failure_never_binds_witness :
    (start envDbFail none).exitCode = some 1 ∧
      ∀ p, StartStep.httpListen p ∉ (start envDbFail none).steps :=
  db_failure_never_binds envDbFail none "db down" rfl

/-- Claim C4: SIGINT and SIGTERM run the same graceful-stop path; with
the global bot handle assigned, `stop()` is invoked exactly once and the
process exits with status 0 even when `client.destroy()` rejects. -/
theorem signals_graceful_stop :
    (∀ b, sigintHandler b = sigtermHandler b) ∧
    (∀ d, (sigintHandler (some d)).stopCalls = 1 ∧
      (sigintHandler (some d)).exitCode = some 0) := by
  constructor
  · intro b; cases b <;> rfl
  · intro d; cases d <;> exact ⟨rfl, rfl⟩

/-- Claim C5: `stop()` always resolves; a rejection of the session
client teardown is logged and never propagated to the caller. -/
theorem stop_always_resolves :
    (∀ d, ∃ l, stop d = Except.ok l) ∧
    (∀ e, stop (Except.error e) = Except.ok ["Error stopping bot: " ++ e]) := by
  constructor
  · intro d; cases d <;> exact ⟨_, rfl⟩
  · intro e; rfl

/-- Claim C6: `GET /` returns status 200 with a JSON body holding
exactly the fields status, version and dashboard, regardless of the
session-client readiness state. -/
theorem root_endpoint_always_ok :
    ∀ ready : Bool, (rootHandler ready).status = 200 ∧
      (rootHandler ready).body.map Prod.fst = ["status", "version", "dashboard"] ∧
      (rootHandler ready).body =
        [("status", "WhatsApp Group Manager Bot is running"),
         ("version", "1.0.0"),
         ("dashboard", "/dashboard")] := by
  intro ready; exact ⟨rfl, rfl, rfl⟩

/-- Counterexample to C7 as stated: the source binds five lifecycle
events, not six, and the `ready` callback logs three times, not exactly
once. -/
theorem lifecycle_log_once_counterexample :
    boundLifecycleEventNames.length ≠ 6 ∧
    (dispatchEvent okHandlers ⟨none, "user"⟩ Event.ready).logs.length ≠ 1 := by
  constructor
  · decide
  · simp [dispatchEvent]

/-- Claim C7 (amended): for each of the five bound lifecycle events, the
registered callback logs at least once and never lets an exception
escape, regardless of the payload. -/
theorem lifecycle_logs_and_safe (h : Handlers) (cfg : DispatchCfg)
    (e : Event) (hl : e.isLifecycle = true) :
    boundLifecycleEventNames.length = 5 ∧
    1 ≤ (dispatchEvent h cfg e).logs.length ∧
    (dispatchEvent h cfg e).uncaught = false := by
  cases e <;> simp_all [dispatchEvent, Event.isLifecycle, boundLifecycleEventNames]

/-- Witness for the amended C7 at the `authenticated` event. -/
theorem lifecycle_logs_and_safe_witness :
    boundLifecycleEventNames.length = 5 ∧
    1 ≤ (dispatchEvent okHandlers ⟨none, "user"⟩ Event.authenticated).logs.length ∧
    (dispatchEvent okHandlers ⟨none, "user"⟩ Event.authenticated).uncaught = false :=
  lifecycle_logs_and_safe okHandlers ⟨none, "user"⟩ Event.authenticated rfl

/-- Claim C8: `start()` initiates its steps in the fixed order database
init, HTTP listen, session-client init, scheduled tasks — the trace is
always a prefix of that order — and the scheduled-task step is reached
only when session-client initialization resolved. -/
theorem start_step_order (env : StartEnv) (webPort : Option String) :
    ((start env webPort).steps = [StartStep.dbInit] ∨
     (start env webPort).steps =
       [StartStep.dbInit, StartStep.httpListen (resolvePort webPort)] ∨
     (start env webPort).steps =
       [StartStep.dbInit, StartStep.httpListen (resolvePort webPort),
        StartStep.clientInit] ∨
     (start env webPort).steps =
       [StartStep.dbInit, StartStep.httpListen (resolvePort webPort),
        StartStep.clientInit, StartStep.scheduledTasks]) ∧
    (StartStep.scheduledTasks ∈ (start env webPort).steps →
      env.clientInitialize = Except.ok ()) := by
  obtain ⟨d, l, c, s⟩ := env
  cases d <;> cases l <;> cases c <;> cases s <;> simp_all [start]

/-- Witness for C8: on the all-success environment the scheduled-task
step is in the trace, so the theorem yields that client initialization
resolved. -/
theorem start_step_order_witness :
    envAllOk.clientInitialize = Except.ok () :=
  (start_step_order envAllOk none).2 (by decide)

/-- Counterexample to C9 as stated: with the port environment variable
set to the empty string, `start()` listens on the default 3000 rather
than on the configured value. -/
theorem port_env_counterexample :
    StartStep.httpListen (PortValue.num 3000) ∈ (start envAllOk (some "")).steps ∧
    StartStep.httpListen (PortValue.str "") ∉ (start envAllOk (some "")).steps := by
  decide

/-- Claim C9 (amended): once database initialization resolves, `start()`
listens on port 3000 when the port environment variable is absent, on
the configured value when it is set to a non-empty string, and falls
back to 3000 when it is set to the empty string (JS falsiness of the
empty string). -/
theorem port_env_default (env : StartEnv) (s : String)
    (hdb : env.initDatabase = .ok ()) (hs : s ≠ "") :
    StartStep.httpListen (PortValue.num 3000) ∈ (start env none).steps ∧
    StartStep.httpListen (PortValue.str s) ∈ (start env (some s)).steps ∧
    StartStep.httpListen (PortValue.num 3000) ∈ (start env (some "")).steps := by
  obtain ⟨d, l, c, t⟩ := env
  simp only at hdb
  subst hdb
  cases l <;> cases c <;> cases t <;>
    simp_all [start, resolvePort, jsTruthy]

/-- Witness for the amended C9 at port string 8080. -/
theorem port_env_default_witness :
    StartStep.httpListen (PortValue.num 3000) ∈ (start envAllOk none).steps ∧
    StartStep.httpListen (PortValue.str "8080") ∈ (start envAllOk (some "8080")).steps ∧
    StartStep.httpListen (PortValue.num 3000) ∈ (start envAllOk (some "")).steps :=
  port_env_default envAllOk "8080" rfl (by decide)

/-- Claim C10: a termination signal delivered before the global bot
handle is assigned skips `stop()` entirely and still exits with status
0, on both SIGINT and SIGTERM. -/
theorem signal_before_bot_assigned :
    (sigintHandler none).stopCalls = 0 ∧ (sigintHandler none).exitCode = some 0 ∧
    (sigtermHandler none).stopCalls = 0 ∧ (sigtermHandler none).exitCode = some 0 :=
  ⟨rfl, rfl, rfl, rfl⟩

end WAGroupManager
